import Mathlib

/-
Shallow embedding of the MarkovJunior cross-implementation verification
harness of this repository:

  scripts/batch_verify.py          (batch orchestrator, adapters, ledger merge)
  scripts/compare_grids.py         (standalone cell-by-cell grid comparator)
  scripts/verification_status.py   (single-model verify path and its comparator)

Conventions of the embedding:

  * A loaded grid-artifact JSON file is the structure Artifact below; file
    existence is modelled by Option Artifact where a code path checks it.
  * Python float accuracies are modelled as exact rationals.  Every claim
    only inspects the values 0.0 and 100.0, which binary floats represent
    exactly, so nothing is lost.
  * Python dict keys that a code path may leave unset (the accuracy and
    is_perfect keys of the compare_grids result dict) are Option fields.
  * A subprocess invocation is an opaque outcome (ProcRun): it timed out,
    raised some other exception, or completed with a stdout text and a flag
    saying whether the engine wrote the expected artifact file.
  * Python division raising ZeroDivisionError on a zero denominator is
    modelled with Except, with an explicit zero test guarding the division.
-/

/-- Character-list prefix test, used to model the Python substring operator. -/
def listStartsWith : List Char → List Char → Bool
  | _, [] => true
  | [], _ :: _ => false
  | h :: hs, n :: ns => h == n && listStartsWith hs ns

/-- Character-list substring test. -/
def listHasSubstr : List Char → List Char → Bool
  | [], needle => needle.isEmpty
  | h :: t, needle => listStartsWith (h :: t) needle || listHasSubstr t needle

/-- Python `needle in hay` on strings (substring containment). -/
def strContains (hay needle : String) : Bool :=
  listHasSubstr hay.data needle.data

/-- Python `sum(1 for c, r in zip(a, b) if c == r)`: number of positions where
the two state sequences agree, over the zip-truncated common prefix. -/
def countMatches (a b : List Nat) : Nat :=
  ((a.zip b).filter (fun p => p.1 == p.2)).length

/-- A loaded grid-artifact JSON file: `model`, `seed`, `dimensions`
(mx, my, mz) and the flat `state` sequence (row-major, x fastest). -/
structure Artifact where
  model : String
  seed : Int
  dimensions : Nat × Nat × Nat
  state : List Nat
deriving DecidableEq

/-- Outcome of one external engine subprocess invocation: it hit the timeout,
raised some other exception, or completed, producing a stdout text and either
writing the expected artifact file or not. -/
inductive ProcRun where
  | timeout
  | runError (msg : String)
  | completed (stdout : String) (artifactWritten : Bool)
deriving DecidableEq

/-- Whether the expected artifact file exists in the store after the adapter
call: it was cached beforehand, or the completed process wrote it. -/
def artifactExistsAfter (cached : Bool) (run : ProcRun) : Bool :=
  cached ||
    match run with
    | ProcRun.completed _ written => written
    | _ => false

/-- A `verified` ledger entry: `{seed, accuracy}` as written by
batch_verify.update_status, plus the `verified_at` timestamp key that only
verification_status.cmd_verify writes (absent in batch-written entries). -/
structure VerEntry where
  seed : Int
  accuracy : ℚ
  verified_at : Option String
deriving DecidableEq

/-- A `failed` ledger entry: `{seed, accuracy, reason}`. -/
structure FailEntry where
  seed : Int
  accuracy : ℚ
  reason : String
deriving DecidableEq

/-- The status.json ledger: three top-level mappings from model name to
entry.  Python dicts are modelled extensionally as partial maps. -/
@[ext]
structure Ledger where
  verified : String → Option VerEntry
  failed : String → Option FailEntry
  skipped : String → Option String

/-- The default ledger `{"verified": {}, "failed": {}, "skipped": {}}` used
when no status file exists yet. -/
def emptyLedger : Ledger :=
  { verified := fun _ => none, failed := fun _ => none, skipped := fun _ => none }

namespace CompareGrids

/-- One entry of the `differences` list built by compare_grids.compare. -/
structure Diff where
  index : Nat
  x : Nat
  y : Nat
  z : Nat
  csharp : Nat
  rust : Nat
deriving DecidableEq

/-- The result dict of compare_grids.compare.  The `accuracy` and
`is_perfect` keys are only set after the cell loop, hence Option: the
dimension-mismatch early return leaves them absent. -/
structure CGResult where
  model : String
  seed : Int
  csharp_dimensions : Nat × Nat × Nat
  rust_dimensions : Nat × Nat × Nat
  dimensions_match : Bool
  total_cells : Nat
  matching_cells : Nat
  differences : List Diff
  accuracy : Option ℚ
  is_perfect : Option Bool
deriving DecidableEq

/-- Index decomposition used in the cell loop of compare_grids.compare:
`x = i % mx`, `y = (i // mx) % my`, `z = i // (mx * my)`. -/
def decodeIndex (mx my : Nat) (i : Nat) : Nat × Nat × Nat :=
  (i % mx, (i / mx) % my, i / (mx * my))

/-- The cell loop `for i, (c, r) in enumerate(zip(...))`: counts matching
cells and collects the difference entries, starting at index `i`. -/
def scanCells (mx my : Nat) : Nat → List (Nat × Nat) → Nat × List Diff
  | _, [] => (0, [])
  | i, (c, r) :: rest =>
    let acc := scanCells mx my (i + 1) rest
    if c = r then (acc.1 + 1, acc.2)
    else
      let xyz := decodeIndex mx my i
      (acc.1, ⟨i, xyz.1, xyz.2.1, xyz.2.2, c, r⟩ :: acc.2)

/-- compare_grids.compare: builds the result dict, early-returns it on
dimension mismatch (leaving accuracy and is_perfect unset), otherwise scans
cell-by-cell over the zip of the two state sequences and fills in accuracy
(100.0 when total_cells is 0) and is_perfect. -/
def compare (csharp rust : Artifact) : CGResult :=
  let base : CGResult :=
    { model := csharp.model
      seed := csharp.seed
      csharp_dimensions := csharp.dimensions
      rust_dimensions := rust.dimensions
      dimensions_match := csharp.dimensions == rust.dimensions
      total_cells := csharp.state.length
      matching_cells := 0
      differences := []
      accuracy := none
      is_perfect := none }
  if !base.dimensions_match then base
  else
    let mx := csharp.dimensions.1
    let my := csharp.dimensions.2.1
    let scanned := scanCells mx my 0 (csharp.state.zip rust.state)
    let total := base.total_cells
    let acc : ℚ := if total > 0 then 100 * (scanned.1 : ℚ) / (total : ℚ) else 100
    { base with
      matching_cells := scanned.1
      differences := scanned.2
      accuracy := some acc
      is_perfect := some scanned.2.isEmpty }

end CompareGrids

namespace BatchVerify

/-- SKIP_MODELS of batch_verify.py: test models and known-unsupported models
excluded from the --all and --all-2d sweeps. -/
def SKIP_MODELS : List String :=
  ["RiverTest1", "RiverTest2", "RiverTest3", "RiverTest4", "RiverTest5",
   "RiverTest6", "RiverTest7", "RiverTest8", "RiverTest9", "RiverTest10",
   "FlowersTest1", "FlowersTest2", "FlowersTest3", "FlowersTest4",
   "FlowersTest5", "FlowersTest6",
   "WaveBrickWall", "WaveDungeon", "WaveFlowers"]

/-- One entry of get_all_models: a model name with its derived
dimensionality flag. -/
structure CatalogModel where
  name : String
  is_3d : Bool
deriving DecidableEq

/-- The argparse flags of batch_verify.main that drive target resolution. -/
structure Args where
  models : List String
  all : Bool
  all_2d : Bool
deriving DecidableEq

/-- What main does after target resolution: run a target list, or print the
help text and return (no mode selected). -/
inductive Selection where
  | run (targets : List String)
  | help
deriving DecidableEq

/-- models_2d of main: non-3D models not in the skip set. -/
def models_2d (allModels : List CatalogModel) : List CatalogModel :=
  allModels.filter (fun m => !m.is_3d && !(SKIP_MODELS.contains m.name))

/-- Target resolution of batch_verify.main: the if/elif chain
`if args.all: ... elif args.all_2d: ... elif args.models: ...` followed by
the print-help fallback.  Python list truthiness is nonemptiness. -/
def resolveTargets (args : Args) (allModels : List CatalogModel) : Selection :=
  if args.all then
    Selection.run ((allModels.filter (fun m => !(SKIP_MODELS.contains m.name))).map CatalogModel.name)
  else if args.all_2d then
    Selection.run ((models_2d allModels).map CatalogModel.name)
  else if args.models ≠ [] then
    Selection.run args.models
  else
    Selection.help

/-- batch_verify.generate_csharp: returns True immediately when the artifact
file is cached; otherwise runs the dotnet process and, on completion, returns
whether stdout contains the marker string (the artifact file itself is not
consulted); timeouts and other exceptions return False. -/
def generate_csharp (cached : Bool) (run : ProcRun) : Bool :=
  if cached then true
  else
    match run with
    | ProcRun.timeout => false
    | ProcRun.runError _ => false
    | ProcRun.completed stdout _ => strContains stdout "JSON dumped"

/-- batch_verify.generate_rust: returns True immediately when the artifact
file is cached; otherwise runs the cargo test process and, on completion,
returns whether the expected output file now exists; timeouts and other
exceptions return False. -/
def generate_rust (cached : Bool) (run : ProcRun) : Bool :=
  if cached then true
  else
    match run with
    | ProcRun.timeout => false
    | ProcRun.runError _ => false
    | ProcRun.completed _ written => written

/-- batch_verify.compare: file-existence checks, then dimension check, length
check, and the match count; accuracy is 100.0 on an empty state sequence.
Returns the (is_match, accuracy, message) tuple. -/
def compare (csharp rust : Option Artifact) : Bool × ℚ × String :=
  match csharp with
  | none => (false, 0, "No C# reference")
  | some cs =>
    match rust with
    | none => (false, 0, "No Rust output")
    | some rs =>
      if cs.dimensions ≠ rs.dimensions then
        (false, 0, "Dim mismatch")
      else if cs.state.length ≠ rs.state.length then
        (false, 0, "Length mismatch: " ++ toString cs.state.length ++ " vs "
          ++ toString rs.state.length)
      else
        let nMatches := countMatches cs.state rs.state
        let acc : ℚ :=
          if cs.state ≠ [] then 100 * (nMatches : ℚ) / (cs.state.length : ℚ) else 100
        if nMatches = cs.state.length then (true, 100, "MATCH")
        else
          (false, acc, toString acc ++ "% ("
            ++ toString (cs.state.length - nMatches) ++ " differ)")

/-- The status strings a verify_model result dict can carry. -/
inductive Status where
  | verified
  | failed
  | csharp_failed
  | rust_failed
deriving DecidableEq

/-- The per-model result dict built by verify_model.  accuracy is set only
when the comparison ran. -/
structure VResult where
  name : String
  seed : Int
  status : Status
  message : String
  accuracy : Option ℚ
deriving DecidableEq

/-- The environment one verify_model task observes: cache state and process
outcome for each adapter, and the artifact each side has on disk when the
comparison loads the files. -/
structure Env where
  csharpCached : Bool
  csharpRun : ProcRun
  rustCached : Bool
  rustRun : ProcRun
  csharpArtifact : Option Artifact
  rustArtifact : Option Artifact

/-- batch_verify.verify_model (regenerate=False path): reference adapter
first (short-circuiting to csharp_failed), then candidate adapter
(short-circuiting to rust_failed), then the comparison classifying
verified/failed. -/
def verify_model (name : String) (seed : Int) (env : Env) : VResult :=
  if generate_csharp env.csharpCached env.csharpRun = false then
    { name := name, seed := seed, status := Status.csharp_failed,
      message := "C# generation failed", accuracy := none }
  else if generate_rust env.rustCached env.rustRun = false then
    { name := name, seed := seed, status := Status.rust_failed,
      message := "Rust generation failed", accuracy := none }
  else
    let r := compare env.csharpArtifact env.rustArtifact
    { name := name, seed := seed,
      status := if r.1 then Status.verified else Status.failed,
      message := r.2.2, accuracy := some r.2.1 }

/-- The loop body of batch_verify.update_status: a verified result writes
`verified[name] = {seed, accuracy}` and deletes any `failed[name]` entry; a
failed result writes `failed[name] = {seed, accuracy (default 0), reason}`;
every other status leaves the ledger untouched. -/
def recordResult (st : Ledger) (r : VResult) : Ledger :=
  match r.status with
  | Status.verified =>
    { st with
      verified := fun n =>
        if n = r.name then some ⟨r.seed, r.accuracy.getD 0, none⟩ else st.verified n
      failed := fun n => if n = r.name then none else st.failed n }
  | Status.failed =>
    { st with
      failed := fun n =>
        if n = r.name then some ⟨r.seed, r.accuracy.getD 0, r.message⟩ else st.failed n }
  | _ => st

/-- batch_verify.update_status: folds the batch results into the loaded
ledger (the subsequent full-file rewrite persists the returned ledger). -/
def update_status (results : List VResult) (st : Ledger) : Ledger :=
  results.foldl recordResult st

end BatchVerify

namespace VerificationStatus

/-- verification_status.generate_csharp_reference: no try/except around the
subprocess call, so a timeout propagates as an exception; on completion
success is whether stdout contains the marker string. -/
def generate_csharp_reference (run : ProcRun) : Except String Bool :=
  match run with
  | ProcRun.timeout => .error "subprocess.TimeoutExpired"
  | ProcRun.runError msg => .error msg
  | ProcRun.completed stdout _ => .ok (strContains stdout "JSON dumped")

/-- verification_status.compare_outputs on two loaded artifact files:
dimension check, length check, then
the accuracy ratio over the state length with no guard on the
denominator — Python raises ZeroDivisionError when the state is empty, which
the explicit zero test models. -/
def compare_outputs (csharp rust : Artifact) : Except String (Bool × ℚ × String) :=
  if csharp.dimensions ≠ rust.dimensions then
    .ok (false, 0, "Dimension mismatch")
  else if csharp.state.length ≠ rust.state.length then
    .ok (false, 0, "State length mismatch: C#=" ++ toString csharp.state.length
      ++ " Rust=" ++ toString rust.state.length)
  else
    let nMatches := countMatches csharp.state rust.state
    if csharp.state.length = 0 then
      .error "ZeroDivisionError: division by zero"
    else
      let acc : ℚ := 100 * (nMatches : ℚ) / (csharp.state.length : ℚ)
      if nMatches = csharp.state.length then .ok (true, 100, "PERFECT MATCH")
      else
        .ok (false, acc, toString (csharp.state.length - nMatches)
          ++ " cells differ")

/-- The ledger update step of verification_status.cmd_verify: a match writes
`verified[model] = {seed, accuracy, verified_at}` and deletes any
`failed[model]` entry; a mismatch writes `failed[model] =
{seed, accuracy, reason}` and leaves `verified` alone.  The timestamp the
subprocess date call produced is passed in. -/
def cmd_verify_update (st : Ledger) (model : String) (seed : Int)
    (is_match : Bool) (accuracy : ℚ) (details : String) (timestamp : String) : Ledger :=
  if is_match then
    { st with
      verified := fun n =>
        if n = model then some ⟨seed, accuracy, some timestamp⟩ else st.verified n
      failed := fun n => if n = model then none else st.failed n }
  else
    { st with
      failed := fun n =>
        if n = model then some ⟨seed, accuracy, details⟩ else st.failed n }

end VerificationStatus

/-
Concrete fixtures used by the witness and counterexample theorems below.
-/

/-- A 3x3x1 artifact with a fully specified state. -/
def sampleArtifact : Artifact :=
  { model := "Basic", seed := 42, dimensions := (3, 3, 1),
    state := [0, 1, 2, 1, 0, 2, 2, 1, 0] }

/-- A verify_model environment in which the reference artifact is cached and
the candidate engine invocation times out. -/
def envRustTimeout : BatchVerify.Env :=
  { csharpCached := true
    csharpRun := ProcRun.completed "JSON dumped" true
    rustCached := false
    rustRun := ProcRun.timeout
    csharpArtifact := some sampleArtifact
    rustArtifact := none }

/-- A two-model catalog, both 2D, neither in the skip set. -/
def catalogBasicRiver : List BatchVerify.CatalogModel :=
  [{ name := "Basic", is_3d := false }, { name := "River", is_3d := false }]

/-- Matching-dimension artifacts whose state lengths differ: the reference
side holds one cell, the candidate side two, with equal common prefix. -/
def shortStateCs : Artifact :=
  { model := "Trunc", seed := 42, dimensions := (1, 2, 1), state := [0] }

/-- The candidate-side artifact for the truncation counterexample. -/
def longStateRs : Artifact :=
  { model := "Trunc", seed := 42, dimensions := (1, 2, 1), state := [0, 5] }

/-- Matching-dimension artifacts of unequal state lengths for the witness of
the amended length-mismatch claim. -/
def lenCs : Artifact :=
  { model := "Len", seed := 42, dimensions := (2, 2, 1), state := [0, 1, 2, 3] }

/-- The shorter candidate-side artifact for the length-mismatch witness. -/
def lenRs : Artifact :=
  { model := "Len", seed := 42, dimensions := (2, 2, 1), state := [0, 1] }

/-- An artifact with zero total cells (a zero extent and an empty state). -/
def emptyCs : Artifact :=
  { model := "Empty", seed := 42, dimensions := (0, 3, 1), state := [] }

/-- The candidate-side empty artifact. -/
def emptyRs : Artifact :=
  { model := "Empty", seed := 42, dimensions := (0, 3, 1), state := [] }

/-- Reference-side artifact of the dimension-mismatch pair (4, 4, 1). -/
def dimMismatchCs : Artifact :=
  { model := "Mismatch", seed := 42, dimensions := (4, 4, 1),
    state := List.replicate 16 0 }

/-- Candidate-side artifact of the dimension-mismatch pair (4, 5, 1). -/
def dimMismatchRs : Artifact :=
  { model := "Mismatch", seed := 42, dimensions := (4, 5, 1),
    state := List.replicate 20 0 }

/-- A batch result dict recording a verified outcome for model Basic. -/
def rvBasic : BatchVerify.VResult :=
  { name := "Basic", seed := 42, status := BatchVerify.Status.verified,
    message := "MATCH", accuracy := some 100 }

/-- A ledger holding one failed entry for model River and nothing else. -/
def stRiver : Ledger :=
  { verified := fun _ => none
    failed := fun n =>
      if n = "River" then some { seed := 7, accuracy := 50, reason := "50% (2 differ)" }
      else none
    skipped := fun _ => none }

/-- A ledger holding a failed entry for model Basic, so that a verified
record for Basic exercises the cross-category deletion. -/
def stBasicFailed : Ledger :=
  { verified := fun _ => none
    failed := fun n =>
      if n = "Basic" then some { seed := 42, accuracy := 0, reason := "Length mismatch: 9 vs 8" }
      else none
    skipped := fun _ => none }

/-
Helper lemmas shared by the claim theorems.
-/

/-- Zipping truncates to the first list: the second operand may be cut to the
length of the first without changing the result. -/
theorem zip_trunc_right (a : List Nat) (b : List Nat) :
    a.zip b = a.zip (b.take a.length) := by
  induction a generalizing b with
  | nil => simp
  | cons x xs ih =>
    cases b with
    | nil => simp
    | cons y ys => simp [List.zip_cons_cons, List.take_succ_cons, ih ys]

/-- recordResult never touches the skipped mapping. -/
theorem recordResult_skipped (st : Ledger) (r : BatchVerify.VResult) :
    (BatchVerify.recordResult st r).skipped = st.skipped := by
  unfold BatchVerify.recordResult
  cases r.status <;> rfl

/-- recordResult leaves the verified entry of every other model unchanged. -/
theorem recordResult_verified_ne (st : Ledger) (r : BatchVerify.VResult)
    (n : String) (h : n ≠ r.name) :
    (BatchVerify.recordResult st r).verified n = st.verified n := by
  unfold BatchVerify.recordResult
  cases r.status <;> simp [h]

/-- recordResult leaves the failed entry of every other model unchanged. -/
theorem recordResult_failed_ne (st : Ledger) (r : BatchVerify.VResult)
    (n : String) (h : n ≠ r.name) :
    (BatchVerify.recordResult st r).failed n = st.failed n := by
  unfold BatchVerify.recordResult
  cases r.status <;> simp [h]

/-
C9 — index decomposition round-trip.
-/

/-- C9: for all positive extents mx, my, mz and every index below
mx*my*mz, decomposing the index as x = index % mx, y = (index / mx) % my,
z = index / (mx*my) and recomputing x + y*mx + z*mx*my yields the index. -/
theorem c9_index_roundtrip (mx my mz i : Nat)
    (_hmx : 0 < mx) (_hmy : 0 < my) (_hmz : 0 < mz) (_hi : i < mx * my * mz) :
    (CompareGrids.decodeIndex mx my i).1
      + (CompareGrids.decodeIndex mx my i).2.1 * mx
      + (CompareGrids.decodeIndex mx my i).2.2 * (mx * my) = i := by
  show i % mx + (i / mx) % my * mx + i / (mx * my) * (mx * my) = i
  have hdiv : i / (mx * my) = i / mx / my := (Nat.div_div_eq_div_mul i mx my).symm
  rw [hdiv]
  calc i % mx + (i / mx) % my * mx + i / mx / my * (mx * my)
      = i % mx + ((i / mx) % my + i / mx / my * my) * mx := by ring
    _ = i % mx + i / mx * mx := by rw [Nat.mod_add_div']
    _ = i := Nat.mod_add_div' i mx

/-- C9 witness: the round-trip at mx=3, my=4, mz=2, index=17. -/
theorem c9_index_roundtrip_witness :
    (0 < 3 ∧ 0 < 4 ∧ 0 < 2 ∧ 17 < 3 * 4 * 2) ∧
    (CompareGrids.decodeIndex 3 4 17).1
      + (CompareGrids.decodeIndex 3 4 17).2.1 * 3
      + (CompareGrids.decodeIndex 3 4 17).2.2 * (3 * 4) = 17 :=
  ⟨by decide,
   c9_index_roundtrip 3 4 2 17 (by decide) (by decide) (by decide) (by decide)⟩

/-
C1 — adapter success signalling.
-/

/-- C1 counterexample: an uncached reference-adapter call whose process
completes printing the marker string without writing the artifact is reported
as success although the expected artifact file does not exist in the store,
refuting that success holds if and only if the artifact exists. -/
theorem c1_counterexample :
    BatchVerify.generate_csharp false (ProcRun.completed "JSON dumped" false) = true ∧
    artifactExistsAfter false (ProcRun.completed "JSON dumped" false) = false := by
  constructor
  · rfl
  · rfl

/-- C1 (amended): for uncached calls whose process completes within the
timeout, the candidate (Rust) adapter returns success exactly when the
expected artifact file exists in the store, while the reference (C#) adapters
determine success from the process stdout alone — the result is unchanged by
whether the artifact was written, and the single-model reference adapter
agrees with the batch one on completed runs. -/
theorem c1_adapter_success_signal (s : String) (w w2 : Bool) :
    (BatchVerify.generate_rust false (ProcRun.completed s w) = true ↔
      artifactExistsAfter false (ProcRun.completed s w) = true) ∧
    BatchVerify.generate_csharp false (ProcRun.completed s w) =
      BatchVerify.generate_csharp false (ProcRun.completed s w2) ∧
    VerificationStatus.generate_csharp_reference (ProcRun.completed s w) =
      .ok (BatchVerify.generate_csharp false (ProcRun.completed s w)) := by
  refine ⟨?_, rfl, rfl⟩
  simp [BatchVerify.generate_rust, artifactExistsAfter]

/-
C3 — batch orchestrator target resolution.
-/

/-- C3 counterexample: an invocation naming an explicit model list and also
passing the all flag is not rejected — resolution silently picks the all
sweep, so the all mode outranks the explicit list, refuting the claimed
priority order and the claimed rejection of combined modes. -/
theorem c3_counterexample :
    BatchVerify.resolveTargets
        { models := ["Basic"], all := true, all_2d := false } catalogBasicRiver
      = BatchVerify.Selection.run ["Basic", "River"] ∧
    BatchVerify.resolveTargets
        { models := ["Basic"], all := true, all_2d := false } catalogBasicRiver
      ≠ BatchVerify.Selection.run ["Basic"] := by
  constructor
  · rfl
  · decide

/-- C3 (amended): target resolution follows the priority order all over
all-2d over the explicit model list, and an invocation selecting more than
one mode is not rejected: the highest-priority selected mode silently wins,
the lower-priority selections being ignored. -/
theorem c3_target_resolution (args : BatchVerify.Args)
    (cat : List BatchVerify.CatalogModel) :
    (args.all = true →
      BatchVerify.resolveTargets args cat =
        BatchVerify.resolveTargets { models := [], all := true, all_2d := false } cat) ∧
    (args.all = false → args.all_2d = true →
      BatchVerify.resolveTargets args cat =
        BatchVerify.resolveTargets { models := [], all := false, all_2d := true } cat) ∧
    (args.all = false → args.all_2d = false → args.models ≠ [] →
      BatchVerify.resolveTargets args cat = BatchVerify.Selection.run args.models) := by
  refine ⟨?_, ?_, ?_⟩
  · intro h
    simp [BatchVerify.resolveTargets, h]
  · intro h1 h2
    simp [BatchVerify.resolveTargets, h1, h2]
  · intro h1 h2 h3
    simp [BatchVerify.resolveTargets, h1, h2, h3]

/-- C3 witness: a mixed invocation (explicit list plus both sweep flags)
resolves exactly as the pure all sweep does. -/
theorem c3_target_resolution_witness :
    BatchVerify.resolveTargets
        { models := ["Basic"], all := true, all_2d := true } catalogBasicRiver
      = BatchVerify.resolveTargets
          { models := [], all := true, all_2d := false } catalogBasicRiver :=
  (c3_target_resolution
    { models := ["Basic"], all := true, all_2d := true } catalogBasicRiver).1 rfl

/-
C4 — empty state sequences.
-/

/-- C4 counterexample: on a matching-dimension pair with zero total cells the
single-model comparator does not return accuracy 100.0 — it fails with a
ZeroDivisionError, since it divides by the state length without a guard. -/
theorem c4_counterexample :
    emptyCs.dimensions = emptyRs.dimensions ∧
    emptyCs.state.length = 0 ∧
    VerificationStatus.compare_outputs emptyCs emptyRs =
      .error "ZeroDivisionError: division by zero" := by
  refine ⟨rfl, rfl, ?_⟩
  rfl

/-- C4 (amended): on artifacts with matching dimensions and empty state
sequences, the batch comparator returns a match with accuracy 100.0 and the
standalone grid comparator sets accuracy 100.0 and a perfect match, but the
single-model comparator raises ZeroDivisionError instead of returning. -/
theorem c4_empty_state_accuracy (cs rs : Artifact)
    (hdim : cs.dimensions = rs.dimensions)
    (hcs : cs.state = []) (hrs : rs.state = []) :
    BatchVerify.compare (some cs) (some rs) = (true, 100, "MATCH") ∧
    (CompareGrids.compare cs rs).accuracy = some 100 ∧
    (CompareGrids.compare cs rs).is_perfect = some true ∧
    VerificationStatus.compare_outputs cs rs =
      .error "ZeroDivisionError: division by zero" := by
  refine ⟨?_, ?_, ?_, ?_⟩
  · simp [BatchVerify.compare, hdim, hcs, hrs, countMatches]
  · simp [CompareGrids.compare, hdim, hcs, hrs, CompareGrids.scanCells]
  · simp [CompareGrids.compare, hdim, hcs, hrs, CompareGrids.scanCells]
  · simp [VerificationStatus.compare_outputs, hdim, hcs, hrs]

/-- C4 witness: the amended statement at the concrete empty pair. -/
theorem c4_empty_state_accuracy_witness :
    BatchVerify.compare (some emptyCs) (some emptyRs) = (true, 100, "MATCH") ∧
    (CompareGrids.compare emptyCs emptyRs).accuracy = some 100 :=
  ⟨(c4_empty_state_accuracy emptyCs emptyRs rfl rfl rfl).1,
   (c4_empty_state_accuracy emptyCs emptyRs rfl rfl rfl).2.1⟩

/-
C5 — dimension-mismatch short-circuit of the standalone comparator.
-/

/-- C5: evaluating the standalone grid comparator at the dimension-mismatch
pair (4,4,1) versus (4,5,1): the early return reports dimensions_match false
with empty differences and no cell scanned, but leaves the accuracy (and
is_perfect) keys of the result dict unset instead of setting accuracy 0.0 —
the batch summary in the same file reads both keys unconditionally. -/
theorem c5_dim_mismatch_missing_accuracy :
    (CompareGrids.compare dimMismatchCs dimMismatchRs).dimensions_match = false ∧
    (CompareGrids.compare dimMismatchCs dimMismatchRs).differences = [] ∧
    (CompareGrids.compare dimMismatchCs dimMismatchRs).matching_cells = 0 ∧
    (CompareGrids.compare dimMismatchCs dimMismatchRs).accuracy = none ∧
    (CompareGrids.compare dimMismatchCs dimMismatchRs).is_perfect = none := by
  refine ⟨?_, ?_, ?_, ?_, ?_⟩ <;> rfl

/-
C6 — state length mismatch under matching dimensions.
-/

/-- C6 counterexample: on a matching-dimension pair whose state lengths
differ, the standalone grid comparator does not return a flagged 0% failure —
it compares only the zip-truncated common prefix and here reports a perfect
match with accuracy 100.0. -/
theorem c6_counterexample :
    shortStateCs.dimensions = longStateRs.dimensions ∧
    shortStateCs.state.length ≠ longStateRs.state.length ∧
    (CompareGrids.compare shortStateCs longStateRs).accuracy = some 100 ∧
    (CompareGrids.compare shortStateCs longStateRs).is_perfect = some true ∧
    (CompareGrids.compare shortStateCs longStateRs).differences = [] := by
  refine ⟨rfl, by decide, ?_, ?_, ?_⟩ <;>
    norm_num [CompareGrids.compare, shortStateCs, longStateRs,
      CompareGrids.scanCells, CompareGrids.decodeIndex]

/-- C6 (amended): on matching declared dimensions with differing state
lengths, the batch comparator and the single-model comparator return a
flagged failure result (0.0 accuracy, descriptive length-mismatch reason)
without raising, while the standalone grid comparator performs no length
check: its result is exactly that of comparing against the candidate state
truncated to the reference length. -/
theorem c6_length_mismatch (cs rs : Artifact)
    (hdim : cs.dimensions = rs.dimensions)
    (hlen : cs.state.length ≠ rs.state.length) :
    BatchVerify.compare (some cs) (some rs) =
      (false, 0, "Length mismatch: " ++ toString cs.state.length ++ " vs "
        ++ toString rs.state.length) ∧
    VerificationStatus.compare_outputs cs rs =
      .ok (false, 0, "State length mismatch: C#=" ++ toString cs.state.length
        ++ " Rust=" ++ toString rs.state.length) ∧
    CompareGrids.compare cs rs =
      CompareGrids.compare cs { rs with state := rs.state.take cs.state.length } := by
  refine ⟨?_, ?_, ?_⟩
  · simp [BatchVerify.compare, hdim, hlen]
  · simp [VerificationStatus.compare_outputs, hdim, hlen]
  · simp only [CompareGrids.compare]
    rw [← zip_trunc_right]

/-- C6 witness: the amended statement at a concrete matching-dimension pair
with state lengths 4 and 2. -/
theorem c6_length_mismatch_witness :
    lenCs.dimensions = lenRs.dimensions ∧
    lenCs.state.length ≠ lenRs.state.length ∧
    BatchVerify.compare (some lenCs) (some lenRs) =
      (false, 0, "Length mismatch: " ++ toString lenCs.state.length ++ " vs "
        ++ toString lenRs.state.length) :=
  ⟨rfl, by decide, (c6_length_mismatch lenCs lenRs rfl (by decide)).1⟩

/-
C2 — candidate generation failure handling.
-/

/-- C2 counterexample: when the candidate engine times out, the task result
carries the generation-failure status, yet merging the batch results into an
empty ledger records nothing for the model — it does not appear in the failed
mapping, refuting that the model is recorded in the ledger as Failed. -/
theorem c2_counterexample :
    (BatchVerify.verify_model "Basic" 42 envRustTimeout).status =
      BatchVerify.Status.rust_failed ∧
    (BatchVerify.update_status [BatchVerify.verify_model "Basic" 42 envRustTimeout]
        emptyLedger).failed "Basic" = none := by
  exact ⟨rfl, rfl⟩

/-- C2 (amended): when the candidate generation adapter fails, the task
result is marked rust_failed with message Rust generation failed and no
comparison is attempted (the result carries no accuracy and is independent of
whatever artifacts are on disk), but the ledger update step ignores
generation-failure statuses: the ledger is returned unchanged, so the model
is not recorded in the failed mapping. -/
theorem c2_generation_failure (name : String) (seed : Int)
    (env : BatchVerify.Env) (st : Ledger)
    (hcs : BatchVerify.generate_csharp env.csharpCached env.csharpRun = true)
    (hrs : BatchVerify.generate_rust env.rustCached env.rustRun = false) :
    (BatchVerify.verify_model name seed env).status = BatchVerify.Status.rust_failed ∧
    (BatchVerify.verify_model name seed env).message = "Rust generation failed" ∧
    (BatchVerify.verify_model name seed env).accuracy = none ∧
    (∀ a b, BatchVerify.verify_model name seed
        { env with csharpArtifact := a, rustArtifact := b }
      = BatchVerify.verify_model name seed env) ∧
    BatchVerify.update_status [BatchVerify.verify_model name seed env] st = st := by
  have hv : BatchVerify.verify_model name seed env =
      { name := name, seed := seed, status := BatchVerify.Status.rust_failed,
        message := "Rust generation failed", accuracy := none } := by
    simp [BatchVerify.verify_model, hcs, hrs]
  refine ⟨by rw [hv], by rw [hv], by rw [hv], ?_, ?_⟩
  · intro a b
    rw [hv]
    simp [BatchVerify.verify_model, hcs, hrs]
  · rw [hv]
    rfl

/-- C2 witness: the amended statement at the concrete timeout environment. -/
theorem c2_generation_failure_witness :
    BatchVerify.generate_csharp envRustTimeout.csharpCached envRustTimeout.csharpRun = true ∧
    BatchVerify.generate_rust envRustTimeout.rustCached envRustTimeout.rustRun = false ∧
    BatchVerify.update_status
        [BatchVerify.verify_model "Basic" 42 envRustTimeout] stRiver = stRiver :=
  ⟨rfl, rfl, (c2_generation_failure "Basic" 42 envRustTimeout stRiver rfl rfl).2.2.2.2⟩

/-
C7 — ledger cross-category invariant.
-/

/-- C7: recording a Verified outcome for a model deletes any prior failed
entry for it, and recording a Failed outcome leaves the verified mapping
untouched — in both the batch ledger-merge path and the single-model
cmd_verify path. -/
theorem c7_ledger_cross_category (st st2 : Ledger) (r : BatchVerify.VResult)
    (m : String) (seed : Int) (acc : ℚ) (d ts : String) :
    (r.status = BatchVerify.Status.verified →
      (BatchVerify.recordResult st r).failed r.name = none) ∧
    (r.status = BatchVerify.Status.failed →
      (BatchVerify.recordResult st r).verified = st.verified) ∧
    (VerificationStatus.cmd_verify_update st2 m seed true acc d ts).failed m = none ∧
    (VerificationStatus.cmd_verify_update st2 m seed false acc d ts).verified
      = st2.verified := by
  refine ⟨?_, ?_, ?_, ?_⟩
  · intro h
    simp [BatchVerify.recordResult, h]
  · intro h
    simp [BatchVerify.recordResult, h]
  · simp [VerificationStatus.cmd_verify_update]
  · simp [VerificationStatus.cmd_verify_update]

/-- C7 witness: a verified record for model Basic erases its failed entry,
and a failed cmd_verify record leaves the verified mapping of the ledger
unchanged. -/
theorem c7_ledger_cross_category_witness :
    (BatchVerify.recordResult stBasicFailed rvBasic).failed rvBasic.name = none ∧
    (VerificationStatus.cmd_verify_update stRiver "Basic" 42 false 0 "mismatch" "ts").verified
      = stRiver.verified :=
  ⟨(c7_ledger_cross_category stBasicFailed stRiver rvBasic "Basic" 42 0 "mismatch" "ts").1 rfl,
   (c7_ledger_cross_category stBasicFailed stRiver rvBasic "Basic" 42 0 "mismatch" "ts").2.2.2⟩

/-
C8 — ledger idempotence for Verified outcomes.
-/

/-- C8: recording the same Verified outcome twice in succession yields a
ledger identical to recording it once, both through the batch ledger merge
and through the cmd_verify update (with the same timestamp). -/
theorem c8_ledger_idempotent (st st2 : Ledger) (r : BatchVerify.VResult)
    (h : r.status = BatchVerify.Status.verified)
    (m : String) (seed : Int) (acc : ℚ) (d ts : String) :
    BatchVerify.update_status [r] (BatchVerify.update_status [r] st) =
      BatchVerify.update_status [r] st ∧
    VerificationStatus.cmd_verify_update
        (VerificationStatus.cmd_verify_update st2 m seed true acc d ts)
        m seed true acc d ts =
      VerificationStatus.cmd_verify_update st2 m seed true acc d ts := by
  constructor
  · show BatchVerify.recordResult (BatchVerify.recordResult st r) r
      = BatchVerify.recordResult st r
    apply Ledger.ext
    · funext n
      simp only [BatchVerify.recordResult, h]
      by_cases hn : n = r.name <;> simp [hn]
    · funext n
      simp only [BatchVerify.recordResult, h]
      by_cases hn : n = r.name <;> simp [hn]
    · rw [recordResult_skipped]
  · apply Ledger.ext
    · funext n
      by_cases hn : n = m <;> simp [VerificationStatus.cmd_verify_update, hn]
    · funext n
      by_cases hn : n = m <;> simp [VerificationStatus.cmd_verify_update, hn]
    · simp [VerificationStatus.cmd_verify_update]

/-- C8 witness: recording the verified Basic result twice over a ledger that
previously held a failed Basic entry equals recording it once. -/
theorem c8_ledger_idempotent_witness :
    rvBasic.status = BatchVerify.Status.verified ∧
    BatchVerify.update_status [rvBasic] (BatchVerify.update_status [rvBasic] stBasicFailed) =
      BatchVerify.update_status [rvBasic] stBasicFailed :=
  ⟨rfl, (c8_ledger_idempotent stBasicFailed emptyLedger rvBasic rfl "M" 1 100 "d" "t").1⟩

/-
C10 — frame property of the ledger update step.
-/

/-- C10: the ledger update step after a batch run carries the skipped mapping
over unchanged, and every verified or failed entry of a model not named in
the batch results is carried over unchanged from the loaded ledger. -/
theorem c10_update_frame (results : List BatchVerify.VResult) (st : Ledger) :
    (BatchVerify.update_status results st).skipped = st.skipped ∧
    ∀ n, n ∉ results.map BatchVerify.VResult.name →
      (BatchVerify.update_status results st).verified n = st.verified n ∧
      (BatchVerify.update_status results st).failed n = st.failed n := by
  induction results generalizing st with
  | nil => exact ⟨rfl, fun n _ => ⟨rfl, rfl⟩⟩
  | cons r rs ih =>
    have hstep : ∀ s : Ledger, BatchVerify.update_status (r :: rs) s
        = BatchVerify.update_status rs (BatchVerify.recordResult s r) :=
      fun s => rfl
    constructor
    · rw [hstep, (ih (BatchVerify.recordResult st r)).1, recordResult_skipped]
    · intro n hn
      simp only [List.map_cons, List.mem_cons] at hn
      push_neg at hn
      obtain ⟨hne, hnotin⟩ := hn
      have h2 := (ih (BatchVerify.recordResult st r)).2 n hnotin
      rw [hstep]
      exact ⟨h2.1.trans (recordResult_verified_ne st r n hne),
             h2.2.trans (recordResult_failed_ne st r n hne)⟩

/-- C10 witness: merging a batch that only touched model Basic leaves the
failed entry of model River and the skipped mapping unchanged. -/
theorem c10_update_frame_witness :
    ("River" ∉ [rvBasic].map BatchVerify.VResult.name) ∧
    (BatchVerify.update_status [rvBasic] stRiver).failed "River" = stRiver.failed "River" ∧
    (BatchVerify.update_status [rvBasic] stRiver).skipped = stRiver.skipped :=
  ⟨by decide,
   ((c10_update_frame [rvBasic] stRiver).2 "River" (by decide)).2,
   (c10_update_frame [rvBasic] stRiver).1⟩
